import Mathlib

/-!
Verification of the Gold Coast property scraper and the PDOnline decision-notice
downloader against their design document.

The pure text-processing core of both scripts (`goldcoast_scraper.py`,
`pdonline_pdf_downloader.py`) is shallowly embedded here: text blobs are
`List Char`, the regular expressions used by the scraper are unfolded into
explicit deterministic matchers (each pattern involved admits no useful
backtracking, which is argued where the matcher is defined), and the
page-interaction layer is abstracted into explicit inputs (the observed div
texts, the panel text, whether a readiness wait succeeded, what each selector
returns).
-/

namespace DevIDemo

/-- Case-insensitive match of `pat` against the beginning of `text`,
as performed by Python's `re` with `re.I` on ASCII patterns. -/
def ciMatchAt (pat text : List Char) : Bool :=
  decide ((text.take pat.length).map Char.toLower = pat.map Char.toLower)

/-- `pat` occurs somewhere in `text`, case-insensitively
(`re.search` with an alternation of literals succeeds iff this holds). -/
def occursCI (pat text : List Char) : Bool :=
  text.tails.any (fun t => ciMatchAt pat t)

/-- Case-sensitive substring test, Python's `needle in hay`. -/
def containsSub (needle hay : List Char) : Bool :=
  hay.tails.any (fun t => needle.isPrefixOf t)

/-- Lower-case a blob, Python's `str.lower()` (ASCII range). -/
def lowerL (l : List Char) : List Char := l.map Char.toLower

/-- Python's `str.strip()`: drop leading and trailing whitespace. -/
def stripChars (l : List Char) : List Char :=
  ((l.dropWhile Char.isWhitespace).reverse.dropWhile Char.isWhitespace).reverse

/-- Split a blob at newline characters; together with the strip-and-drop-empty
step applied to every use site this is observably Python's `str.splitlines()`. -/
def splitNl : List Char → List (List Char)
  | [] => [[]]
  | c :: rest =>
    if c = '\n' then [] :: splitNl rest
    else
      match splitNl rest with
      | [] => [[c]]
      | l :: ls => (c :: l) :: ls

/-- The four zoning-category alternatives of the zone regex in
`extract_zone_density_overlays` (goldcoast_scraper.py line 95), in source order. -/
def zonePhrases : List (List Char) :=
  ["Low density residential".toList,
   "Low-medium density residential".toList,
   "Medium density residential".toList,
   "High density residential".toList]

/-- `re.search` on an alternation of literal patterns, case-insensitive:
scan positions left to right; at the first position where some alternative
matches, return the slice of the *text* covered by the first matching
alternative (so the text's own casing is preserved, as `group(1)` does). -/
def reSearchFirst (pats : List (List Char)) : List Char → Option (List Char)
  | [] =>
    (pats.find? (fun p => ciMatchAt p [])).map
      (fun p => (([] : List Char)).take p.length)
  | c :: rest =>
    match pats.find? (fun p => ciMatchAt p (c :: rest)) with
    | some p => some ((c :: rest).take p.length)
    | none => reSearchFirst pats rest

/-- Zone extraction (goldcoast_scraper.py lines 94-100):
`zone_match.group(1)` of the four-way alternation, else `None`. -/
def extractZone (panelText : List Char) : Option (List Char) :=
  reSearchFirst zonePhrases panelText

/-- Case-insensitive strip of a literal from the front of a blob;
building block for the unfolded regex matchers below. -/
def ciStripAt (pat t : List Char) : Option (List Char) :=
  if ciMatchAt pat t then some (t.drop pat.length) else none

/-- The residential-density pattern `Residential\s+density[:\s]+(RD\d+)` with
`re.I`, matched at the start of `t` (goldcoast_scraper.py line 105).  Each
greedy repetition is followed by a literal outside its character class, so the
maximal run is the only viable choice and no backtracking can occur; the
returned group keeps the text's own casing, as `group(1)` does. -/
def matchDensityHere (t : List Char) : Option (List Char) :=
  match ciStripAt "Residential".toList t with
  | none => none
  | some t1 =>
    let ws := t1.takeWhile Char.isWhitespace
    if ws = [] then none
    else
      match ciStripAt "density".toList (t1.drop ws.length) with
      | none => none
      | some t2 =>
        let sep := t2.takeWhile (fun c => c = ':' || c.isWhitespace)
        if sep = [] then none
        else
          match t2.drop sep.length with
          | r :: d :: t4 =>
            if (r = 'R' || r = 'r') && (d = 'D' || d = 'd') then
              let ds := t4.takeWhile Char.isDigit
              if ds = [] then none else some (r :: d :: ds)
            else none
          | _ => none

/-- `re.search` of the density pattern: leftmost matching position wins. -/
def searchDensity : List Char → Option (List Char)
  | [] => none
  | c :: rest =>
    match matchDensityHere (c :: rest) with
    | some g => some g
    | none => searchDensity rest

/-- Density extraction (goldcoast_scraper.py lines 104-106). -/
def extractDensity (panelText : List Char) : Option (List Char) :=
  searchDensity panelText

/-- The area pattern `Plan\s*Area\s*([\d.,]+)\s*m[²2]` with `re.I`, matched at
the start of `t` (goldcoast_scraper.py line 33).  The digit group's characters
are never whitespace and never `m`, so the greedy group and the greedy `\s*`
have exactly one viable (maximal) extent and no backtracking can occur. -/
def matchAreaHere (t : List Char) : Option (List Char) :=
  match ciStripAt "Plan".toList t with
  | none => none
  | some t1 =>
    match ciStripAt "Area".toList (t1.dropWhile Char.isWhitespace) with
    | none => none
    | some t3 =>
      let t4 := t3.dropWhile Char.isWhitespace
      let num := t4.takeWhile (fun c => c.isDigit || c = '.' || c = ',')
      if num = [] then none
      else
        match (t4.drop num.length).dropWhile Char.isWhitespace with
        | m :: sq :: _ =>
          if (m = 'm' || m = 'M') && (sq = '²' || sq = '2') then some num
          else none
        | _ => none

/-- `re.search` of the area pattern: leftmost matching position wins. -/
def searchArea : List Char → Option (List Char)
  | [] => none
  | c :: rest =>
    match matchAreaHere (c :: rest) with
    | some g => some g
    | none => searchArea rest

/-- `group(1).replace(",", "")` (goldcoast_scraper.py line 35). -/
def removeCommas (l : List Char) : List Char := l.filter (fun c => c ≠ ',')

/-- The lot/plan pattern `Lot/Plan\s+(\w+)` with `re.I`, matched at the start
of `t` (goldcoast_scraper.py line 39); same no-backtracking argument. -/
def matchLotplanHere (t : List Char) : Option (List Char) :=
  match ciStripAt "Lot/Plan".toList t with
  | none => none
  | some t1 =>
    let ws := t1.takeWhile Char.isWhitespace
    if ws = [] then none
    else
      let w := (t1.drop ws.length).takeWhile (fun c => c.isAlphanum || c = '_')
      if w = [] then none else some w

/-- `re.search` of the lot/plan pattern: leftmost matching position wins. -/
def searchLotplan : List Char → Option (List Char)
  | [] => none
  | c :: rest =>
    match matchLotplanHere (c :: rest) with
    | some g => some g
    | none => searchLotplan rest

/-- Python truthiness test used by `if area_match and not area` /
`if lotplan_match and not lotplan`: `None` and `""` are falsy. -/
def pyFalsy : Option (List Char) → Bool
  | none => true
  | some s => decide (s = [])

/-- One iteration of the div loop in `extract_area_and_lotplan`
(goldcoast_scraper.py lines 26-42): the div's text is stripped, each pattern
is searched, and a field is (re)assigned only while it is still falsy. -/
def areaLotplanStep (st : Option (List Char) × Option (List Char))
    (txt : List Char) : Option (List Char) × Option (List Char) :=
  let t := stripChars txt
  let a := match searchArea t with
    | some g => if pyFalsy st.1 then some (removeCommas g) else st.1
    | none => st.1
  let lp := match searchLotplan t with
    | some g => if pyFalsy st.2 then some g else st.2
    | none => st.2
  (a, lp)

/-- `extract_area_and_lotplan` (goldcoast_scraper.py lines 18-47) over the
texts of the divs of the property-detail container, in DOM order. -/
def extract_area_and_lotplan (divTexts : List (List Char)) :
    Option (List Char) × Option (List Char) :=
  divTexts.foldl areaLotplanStep (none, none)

/-- End anchors of the overlay-section regex
`Overlays(.*?)(?:LGIP|Local Government|Plan Zone|$)`
(goldcoast_scraper.py line 113), in alternation order. -/
def overlayEndAnchors : List (List Char) :=
  ["LGIP".toList, "Local Government".toList, "Plan Zone".toList]

/-- Suffix of `text` after the first case-insensitive occurrence of `pat`
(the leftmost `re.search` start for a pattern led by the literal `pat`). -/
def dropThroughCI (pat : List Char) : List Char → Option (List Char)
  | [] => if pat = [] then some [] else none
  | c :: rest =>
    if ciMatchAt pat (c :: rest) then some ((c :: rest).drop pat.length)
    else dropThroughCI pat rest

/-- Lazy group `(.*?)` followed by the end-anchor alternation: the group ends
at the first position where an end anchor matches, or at the end of the blob
(the `$` alternative). -/
def takeUntilAnchors (anchors : List (List Char)) : List Char → List Char
  | [] => []
  | c :: rest =>
    if anchors.any (fun a => ciMatchAt a (c :: rest)) then []
    else c :: takeUntilAnchors anchors rest

/-- `overlay_section.group(1)` (goldcoast_scraper.py lines 112-117):
present iff `Overlays` occurs in the blob (the tail of the pattern can always
complete via `$`). -/
def overlaySection (panelText : List Char) : Option (List Char) :=
  (dropThroughCI "Overlays".toList panelText).map (takeUntilAnchors overlayEndAnchors)

/-- `lines = [ln.strip() for ln in overlay_text.splitlines() if ln.strip()]`
(goldcoast_scraper.py line 118). -/
def sectionLines (sec : List Char) : List (List Char) :=
  ((splitNl sec).map stripChars).filter (fun l => l ≠ [])

/-- `exclude = ("view section", "show on map", "overlays")`
(goldcoast_scraper.py line 119). -/
def overlayExclude : List (List Char) :=
  ["view section".toList, "show on map".toList, "overlays".toList]

/-- `any(ex in ln.lower() for ex in exclude)` (goldcoast_scraper.py line 121). -/
def lineExcluded (ln : List Char) : Bool :=
  overlayExclude.any (fun ex => containsSub ex (lowerL ln))

/-- The overlay accumulation loop (goldcoast_scraper.py lines 120-124):
skip excluded lines, then `if len(ln) > 5 and ln not in overlays: append`. -/
def buildOverlays : List (List Char) → List (List Char) → List (List Char)
  | acc, [] => acc
  | acc, ln :: rest =>
    if lineExcluded ln = true then buildOverlays acc rest
    else if 5 < ln.length ∧ ln ∉ acc then buildOverlays (acc ++ [ln]) rest
    else buildOverlays acc rest

/-- Overlay extraction (goldcoast_scraper.py lines 110-126): isolate the
anchored section, split/strip/drop-empty its lines, then run the loop. -/
def extractOverlays (panelText : List Char) : List (List Char) :=
  match overlaySection panelText with
  | none => []
  | some sec => buildOverlays [] (sectionLines sec)

/-- `extract_zone_density_overlays` (goldcoast_scraper.py lines 85-127). -/
def extract_zone_density_overlays (panelText : List Char) :
    Option (List Char) × Option (List Char) × List (List Char) :=
  (extractZone panelText, extractDensity panelText, extractOverlays panelText)

/-- First-seen-order deduplication relative to an already-seen set: keep each
element the first time it appears and is not already in `seen`. -/
def dedupFrom (seen : List (List Char)) : List (List Char) → List (List Char)
  | [] => []
  | x :: xs => if x ∈ seen then dedupFrom seen xs else x :: dedupFrom (seen ++ [x]) xs

/-- First-seen-order deduplication, stated from the spec's words
("deduplicates while preserving first-seen order"); used to compare the
source's accumulation loop against the Section Scanner contract. -/
def dedupFirst (l : List (List Char)) : List (List Char) := dedupFrom [] l

/-- The Section Scanner contract exactly as the spec states it: keep the
(already trimmed, non-empty) lines that contain no excluded substring, then
deduplicate preserving first-seen order.  No other condition. -/
def claimedSectionLines (lines : List (List Char)) : List (List Char) :=
  dedupFirst (lines.filter (fun ln => !(lineExcluded ln)))

/-- The line-keeping condition the source actually applies: not excluded and
longer than five characters. -/
def keepLine (ln : List Char) : Bool :=
  !(lineExcluded ln) && decide (5 < ln.length)

/-- The Section Scanner contract amended with the source's length condition. -/
def amendedSectionLines (lines : List (List Char)) : List (List Char) :=
  dedupFirst (lines.filter keepLine)

/-- A table row as the downloader observes it (pdonline_pdf_downloader.py,
step 6): its full inner text, the inner texts of its `td` cells, and the
handle of the anchor in its first cell when one exists. -/
structure PRow where
  text : List Char
  cells : List (List Char)
  firstLink : Option Nat
deriving DecidableEq

/-- `'Signed Decision Notice' in text` (pdonline_pdf_downloader.py line 292). -/
def marker : List Char := "Signed Decision Notice".toList

/-- The document keywords of the listing loop
(pdonline_pdf_downloader.py line 270). -/
def docKeywords : List (List Char) :=
  ["Form".toList, "Plan".toList, "Report".toList,
   "Notice".toList, "Decision".toList, "Letter".toList]

/-- The per-row body of the document-listing loop (pdonline_pdf_downloader.py
lines 266-282): a row yields a `(link, name)` entry when its text contains a
document keyword, it has at least two cells, and its stripped name cell is
non-empty. -/
def docEntryOf (row : PRow) : Option (List Char × List Char) :=
  if docKeywords.any (fun k => containsSub k row.text) then
    if 2 ≤ row.cells.length then
      if stripChars (row.cells.getD 1 []) ≠ [] then
        some (stripChars (row.cells.getD 0 []), stripChars (row.cells.getD 1 []))
      else none
    else none
  else none

/-- `documents_found` after the listing loop (pdonline_pdf_downloader.py
lines 265-282), as the fold the loop performs. -/
def documentsFound (rows : List PRow) : List (List Char × List Char) :=
  rows.foldl
    (fun acc row =>
      match docEntryOf row with
      | some e => acc ++ [e]
      | none => acc)
    []

/-- The row-matching loop (pdonline_pdf_downloader.py lines 288-302): scan
rows in order, and at the first row whose text contains the marker *and*
whose first cell holds an anchor, stop with that anchor; a matching row
without an anchor is passed over (the loop body only breaks after
`if link_cell:`). -/
def findDecisionLink : List PRow → Option Nat
  | [] => none
  | row :: rest =>
    if containsSub marker row.text then
      match row.firstLink with
      | some l => some l
      | none => findDecisionLink rest
    else findDecisionLink rest

/-- The dict `download_decision_notice` returns on the document-search paths
(pdonline_pdf_downloader.py lines 304-314 and 347-353). -/
structure DownloadResult where
  success : Bool
  file_path : Option (List Char)
  error : Option (List Char)
  documents_available : Option (List (List Char))
deriving DecidableEq

/-- Outcome of step 6/7 of `download_decision_notice` given the scanned rows:
either the marker row's link is found (download succeeds, dict of line 347)
or the structured no-match dict of line 309 is returned — built from
`documents_found`, not from the full row list. -/
def scanAndDownload (rows : List PRow) (savedPath : List Char) : DownloadResult :=
  match findDecisionLink rows with
  | some _ =>
    { success := true, file_path := some savedPath,
      error := none, documents_available := none }
  | none =>
    { success := false, file_path := none,
      error := some "Signed Decision Notice not found".toList,
      documents_available := some ((documentsFound rows).map Prod.snd) }

/-- The ordered-fallback loop shared by `scrape_left_panel_text`
(goldcoast_scraper.py lines 67-75) and the selector loop of
`download_decision_notice` (pdonline_pdf_downloader.py lines 61-77):
try strategies in order, return on the first success, and also record,
in order, every strategy actually attempted. -/
def resolverTrace {S R : Type} (tryS : S → Option R) :
    List S → List S × Option (S × R)
  | [] => ([], none)
  | s :: rest =>
    match tryS s with
    | some r => ([s], some (s, r))
    | none => (s :: (resolverTrace tryS rest).1, (resolverTrace tryS rest).2)

/-- Concrete resolver used to exercise `resolverTrace`: only strategy `2`
resolves (to `7`). -/
def tryDemo : Nat → Option Nat := fun s => if s = 2 then some 7 else none

/-- The page as `scrape_left_panel_text` observes it: whether the zone-text
readiness wait succeeded within its bound, what `inner_text` of the first
element of each selector returns (`none` models the raising paths), and the
body text (reading the body is the code's always-available fallback). -/
structure PanelPage where
  zoneReady : Bool
  selectorText : List Char → Option (List Char)
  bodyText : List Char

/-- The selector list of `scrape_left_panel_text`
(goldcoast_scraper.py lines 59-65), in source order. -/
def panelSelectors : List (List Char) :=
  [".esri-feature__content-node".toList,
   ".esri-feature".toList,
   ".esri-widget".toList,
   "[class*=\x27property-info\x27]".toList,
   "[class*=\x27panel\x27]".toList]

/-- One attempt of the selector loop (goldcoast_scraper.py lines 67-75):
an attempt succeeds when the selector's text is readable and mentions
zone or overlay; a raising read (`none`) or an off-topic text falls through. -/
def trySelectorPanel (pg : PanelPage) (sel : List Char) : Option (List Char) :=
  match pg.selectorText sel with
  | none => none
  | some t =>
    if containsSub "zone".toList (lowerL t) || containsSub "overlay".toList (lowerL t)
    then some t
    else none

/-- `scrape_left_panel_text` (goldcoast_scraper.py lines 49-83): when the
readiness wait times out, the surrounding `except` returns the body text
(line 83); when it succeeds, the selector loop runs and a fully exhausted
loop also falls back to the body text (line 79).  Total: every path returns. -/
def scrape_left_panel_text (pg : PanelPage) : List Char :=
  if pg.zoneReady then
    match (resolverTrace (trySelectorPanel pg) panelSelectors).2 with
    | some sr => sr.2
    | none => pg.bodyText
  else pg.bodyText

/-- Timed-out page used to exercise the fallback path. -/
def pgTimeout : PanelPage :=
  { zoneReady := false
    selectorText := fun _ => none
    bodyText := "Gold Coast City Plan interactive mapping".toList }

/-- The error propagated out of `scrape_goldcoast_property`'s handler
(goldcoast_scraper.py lines 221-225): the diagnostic screenshot is *not*
guarded, so when the capture itself raises (`captureErr = some c`) that
exception replaces the original one; only when the capture succeeds does
`raise` re-raise the original error. -/
def goldcoast_failure_propagated (captureErr : Option (List Char))
    (origErr : List Char) : List Char :=
  match captureErr with
  | some c => c
  | none => origErr

/-- The failure dict of `download_decision_notice`'s handler
(pdonline_pdf_downloader.py lines 355-374): the diagnostic capture sits in an
inner `try/except: pass`, so the returned dict carries the original error
whether or not the capture raised. -/
def pdonline_failure_result (_captureErr : Option (List Char))
    (origErr : List Char) : DownloadResult :=
  { success := false, file_path := none,
    error := some origErr, documents_available := none }

/-- The `PropertyData` dataclass (goldcoast_scraper.py lines 8-16). -/
structure PropertyData where
  address : List Char
  lot_plan : Option (List Char)
  zone : Option (List Char)
  residential_density : Option (List Char)
  area_sqm : Option (List Char)
  building_height : Option (List Char)
  overlays : List (List Char)
deriving DecidableEq

/-- `result = PropertyData(address=query, overlays=[])`
(goldcoast_scraper.py line 160). -/
def init_record (query : List Char) : PropertyData :=
  { address := query, lot_plan := none, zone := none,
    residential_density := none, area_sqm := none,
    building_height := none, overlays := [] }

/-- `result.area_sqm, result.lot_plan = extract_area_and_lotplan(page)`
(goldcoast_scraper.py line 184). -/
def stage_area_lotplan (divTexts : List (List Char)) (r : PropertyData) :
    PropertyData :=
  { r with area_sqm := (extract_area_and_lotplan divTexts).1,
           lot_plan := (extract_area_and_lotplan divTexts).2 }

/-- `result.zone, result.residential_density, result.overlays = ...`
(goldcoast_scraper.py lines 188-189). -/
def stage_zone_density_overlays (panelText : List Char) (r : PropertyData) :
    PropertyData :=
  { r with zone := extractZone panelText,
           residential_density := extractDensity panelText,
           overlays := extractOverlays panelText }

/-- Lines 192-195: `building_height` is set to the screenshot marker only
when the height layer was enabled and the screenshot succeeded. -/
def stage_building_height (heightCaptured : Bool) (r : PropertyData) :
    PropertyData :=
  if heightCaptured then { r with building_height := some "(see screenshot)".toList }
  else r

/-- The happy path of `scrape_goldcoast_property` (goldcoast_scraper.py
lines 158-219) as a function of the query and of what the page yielded at
each stage. -/
def scrape_goldcoast_property (query : List Char) (divTexts : List (List Char))
    (panelText : List Char) (heightCaptured : Bool) : PropertyData :=
  stage_building_height heightCaptured
    (stage_zone_density_overlays panelText
      (stage_area_lotplan divTexts (init_record query)))

/-- The three rows of the documented Row Matcher example, each carrying a
distinct link handle. -/
def demoRows : List PRow :=
  [{ text := "Plan Form".toList,
     cells := ["Open".toList, "Plan Form".toList], firstLink := some 1 },
   { text := "Signed Decision Notice".toList,
     cells := ["Open".toList, "Signed Decision Notice".toList], firstLink := some 2 },
   { text := "Signed Decision Notice (draft)".toList,
     cells := ["Open".toList, "Signed Decision Notice (draft)".toList], firstLink := some 3 }]

/-- Rows that defeat the original wording of C5: both are visited by the
scan, but only the first is recognized as a document row (its text contains
the keyword `Plan`/`Form`); neither contains the marker phrase. -/
def cexRows : List PRow :=
  [{ text := "Plan Form attachment".toList,
     cells := ["lnk1".toList, "Plan Form".toList], firstLink := some 1 },
   { text := "Minutes of meeting".toList,
     cells := ["lnk2".toList, "Minutes".toList], firstLink := some 2 }]

/-! Supporting lemmas about the alternation search. -/

theorem ciMatchAt_eq_true {p t : List Char} :
    ciMatchAt p t = true ↔ (t.take p.length).map Char.toLower = p.map Char.toLower := by
  simp [ciMatchAt]

theorem occursCI_iff {p t : List Char} :
    occursCI p t = true ↔ ∃ s, s <:+ t ∧ ciMatchAt p s = true := by
  constructor
  · intro h
    rcases List.any_eq_true.mp h with ⟨s, hmem, hm⟩
    exact ⟨s, (List.mem_tails s t).mp hmem, hm⟩
  · rintro ⟨s, hsuf, hm⟩
    exact List.any_eq_true.mpr ⟨s, (List.mem_tails s t).mpr hsuf, hm⟩

theorem occursCI_cons {p : List Char} {c : Char} {t : List Char}
    (h : occursCI p t = true) : occursCI p (c :: t) = true := by
  rcases occursCI_iff.mp h with ⟨s, hs, hm⟩
  exact occursCI_iff.mpr ⟨s, hs.trans (List.suffix_cons c t), hm⟩

theorem reSearchFirst_eq_none {pats : List (List Char)} {t : List Char}
    (h : ∀ p ∈ pats, occursCI p t = false) : reSearchFirst pats t = none := by
  induction t with
  | nil =>
    have hfind : (pats.find? fun p => ciMatchAt p []) = none := by
      rw [List.find?_eq_none]
      intro p hp hm
      have : occursCI p [] = true := occursCI_iff.mpr ⟨[], List.suffix_refl _, hm⟩
      rw [h p hp] at this
      exact Bool.noConfusion this
    simp [reSearchFirst, hfind]
  | cons c rest ih =>
    have hfind : (pats.find? fun p => ciMatchAt p (c :: rest)) = none := by
      rw [List.find?_eq_none]
      intro p hp hm
      have : occursCI p (c :: rest) = true :=
        occursCI_iff.mpr ⟨c :: rest, List.suffix_refl _, hm⟩
      rw [h p hp] at this
      exact Bool.noConfusion this
    have hrest : ∀ p ∈ pats, occursCI p rest = false := by
      intro p hp
      cases hx : occursCI p rest with
      | false => rfl
      | true =>
        have := occursCI_cons (c := c) hx
        rw [h p hp] at this
        exact Bool.noConfusion this
    simp [reSearchFirst, hfind]
    exact ih hrest

theorem reSearchFirst_isSome {pats : List (List Char)} {t p : List Char}
    (hp : p ∈ pats) (h : occursCI p t = true) :
    (reSearchFirst pats t).isSome = true := by
  induction t with
  | nil =>
    have hm : ciMatchAt p [] = true := by
      rcases occursCI_iff.mp h with ⟨s, hs, hm⟩
      rcases List.suffix_nil.mp hs with rfl
      exact hm
    simp [reSearchFirst]
    exact ⟨p, hp, hm⟩
  | cons c rest ih =>
    cases hf : pats.find? (fun q => ciMatchAt q (c :: rest)) with
    | some q => simp [reSearchFirst, hf]
    | none =>
      have hnot := List.find?_eq_none.mp hf
      rcases occursCI_iff.mp h with ⟨s, hs, hm⟩
      rcases List.suffix_cons_iff.mp hs with heq | hs'
      · subst heq
        exact absurd hm (hnot p hp)
      · have hor : occursCI p rest = true := occursCI_iff.mpr ⟨s, hs', hm⟩
        simpa [reSearchFirst, hf] using ih hor

theorem reSearchFirst_some_spec {pats : List (List Char)} {t s : List Char}
    (h : reSearchFirst pats t = some s) :
    ∃ p, p ∈ pats ∧ occursCI p t = true ∧
      s.map Char.toLower = p.map Char.toLower ∧ s <:+: t := by
  induction t with
  | nil =>
    simp only [reSearchFirst, Option.map_eq_some'] at h
    rcases h with ⟨p, hfind, hs⟩
    have hp := List.mem_of_find?_eq_some hfind
    have hm := List.find?_some hfind
    have hnil : s = [] := by rw [← hs]; simp
    subst hnil
    refine ⟨p, hp, occursCI_iff.mpr ⟨[], List.suffix_refl _, hm⟩, ?_, List.nil_infix⟩
    simpa using (ciMatchAt_eq_true.mp hm).symm.symm
  | cons c rest ih =>
    cases hf : pats.find? (fun q => ciMatchAt q (c :: rest)) with
    | some p =>
      have hp := List.mem_of_find?_eq_some hf
      have hm := List.find?_some hf
      have hs : s = (c :: rest).take p.length := by
        have hval : reSearchFirst pats (c :: rest) = some ((c :: rest).take p.length) := by
          simp [reSearchFirst, hf]
        rw [hval] at h
        exact (Option.some.inj h).symm
      subst hs
      exact ⟨p, hp, occursCI_iff.mpr ⟨c :: rest, List.suffix_refl _, hm⟩,
        ciMatchAt_eq_true.mp hm, (List.take_prefix _ _).isInfix⟩
    | none =>
      have h' : reSearchFirst pats rest = some s := by
        simpa [reSearchFirst, hf] using h
      rcases ih h' with ⟨p, hp, hocc, hmap, hinf⟩
      exact ⟨p, hp, occursCI_cons hocc, hmap, List.infix_cons hinf⟩

/-- Claim C1: for every text blob containing exactly one of the four
zoning-category phrases (case-insensitively), the zone extraction returns
that phrase as it is spelled in the blob (a lower-case-equal infix of the
blob), and for a blob containing none of the phrases the zone is absent. -/
theorem zone_extraction_first_match :
    (∀ blob p : List Char,
       zonePhrases.filter (fun q => occursCI q blob) = [p] →
       ∃ s, extractZone blob = some s ∧
         s.map Char.toLower = p.map Char.toLower ∧ s <:+: blob)
  ∧ (∀ blob : List Char,
       (∀ p ∈ zonePhrases, occursCI p blob = false) → extractZone blob = none) := by
  constructor
  · intro blob p hfilter
    have hpmem : p ∈ zonePhrases.filter (fun q => occursCI q blob) := by
      rw [hfilter]
      exact List.mem_singleton_self p
    have hp : p ∈ zonePhrases := (List.mem_filter.mp hpmem).1
    have hocc : occursCI p blob = true := (List.mem_filter.mp hpmem).2
    rcases Option.isSome_iff_exists.mp (reSearchFirst_isSome hp hocc) with ⟨s, hs⟩
    rcases reSearchFirst_some_spec hs with ⟨q, hq, hqocc, hmap, hinf⟩
    have hqf : q ∈ zonePhrases.filter (fun r => occursCI r blob) :=
      List.mem_filter.mpr ⟨hq, hqocc⟩
    rw [hfilter] at hqf
    have hqp : q = p := List.mem_singleton.mp hqf
    subst hqp
    exact ⟨s, hs, hmap, hinf⟩
  · intro blob h
    exact reSearchFirst_eq_none h

/-- Witness for C1: a blob containing exactly `High density residential`
(spelled `HIGH Density Residential`), and a blob containing no phrase. -/
theorem zone_extraction_first_match_witness :
    (zonePhrases.filter
       (fun q => occursCI q ("Zoning: HIGH Density Residential precinct".toList))
       = ["High density residential".toList])
  ∧ (∃ s, extractZone ("Zoning: HIGH Density Residential precinct".toList) = some s ∧
       s.map Char.toLower = ("High density residential".toList).map Char.toLower ∧
       s <:+: ("Zoning: HIGH Density Residential precinct".toList))
  ∧ (∀ p ∈ zonePhrases, occursCI p ("industrial estate".toList) = false)
  ∧ extractZone ("industrial estate".toList) = none :=
  ⟨by decide,
   zone_extraction_first_match.1 _ _ (by decide),
   by decide,
   zone_extraction_first_match.2 _ (by decide)⟩

/-- Claim C2: on the documented example blob, with the code's anchors and
exclusion set, the overlay extraction returns exactly
`["Flood overlay", "Bushfire overlay"]`: the `Show on map` line is dropped
case-insensitively, the duplicate keeps its first occurrence, and first-seen
order is preserved. -/
theorem overlay_scanner_example :
    extractOverlays
      ("Overlays\nFlood overlay\nShow on map\nBushfire overlay\nFlood overlay\nLGIP".toList)
      = ["Flood overlay".toList, "Bushfire overlay".toList] := by
  decide

/-- The accumulation loop of the overlay extraction equals filtering by the
keep condition and then deduplicating in first-seen order, relative to the
lines already accumulated. -/
theorem buildOverlays_eq (lines : List (List Char)) :
    ∀ acc, buildOverlays acc lines = acc ++ dedupFrom acc (lines.filter keepLine) := by
  induction lines with
  | nil => intro acc; simp [buildOverlays, dedupFrom]
  | cons ln rest ih =>
    intro acc
    cases hex : lineExcluded ln with
    | true =>
      have hkeep : keepLine ln = false := by simp [keepLine, hex]
      simp [buildOverlays, hex, ih, List.filter_cons, hkeep]
    | false =>
      by_cases hlen : 5 < ln.length
      · have hkeep : keepLine ln = true := by simp [keepLine, hex, hlen]
        by_cases hmem : ln ∈ acc
        · have hcond : ¬ (5 < ln.length ∧ ln ∉ acc) := by simp [hmem]
          simp [buildOverlays, hex, hcond, ih, List.filter_cons, hkeep, dedupFrom, hmem]
        · have hcond : 5 < ln.length ∧ ln ∉ acc := ⟨hlen, hmem⟩
          have lhs : buildOverlays acc (ln :: rest) = buildOverlays (acc ++ [ln]) rest := by
            simp [buildOverlays, hex, hcond]
          rw [lhs, ih]
          simp [List.filter_cons, hkeep, dedupFrom, hmem]
      · have hkeep : keepLine ln = false := by simp [keepLine, hlen]
        have hcond : ¬ (5 < ln.length ∧ ln ∉ acc) := by simp [hlen]
        simp [buildOverlays, hex, hcond, ih, List.filter_cons, hkeep]

/-- Counterexample for C3: in the blob `"Overlays\nAcid\nLGIP"` the isolated
section's only trimmed, non-empty, non-excluded, non-duplicate line is
`"Acid"`, so the claimed contract requires it in the output; the code's
additional `len(ln) > 5` test (goldcoast_scraper.py line 123) drops it and
the extraction returns the empty list. -/
theorem section_scanner_drops_short_line :
    overlaySection ("Overlays\nAcid\nLGIP".toList) = some ("\nAcid\n".toList)
  ∧ claimedSectionLines (sectionLines ("\nAcid\n".toList)) = ["Acid".toList]
  ∧ extractOverlays ("Overlays\nAcid\nLGIP".toList) = [] := by
  refine ⟨by decide, ?_, by decide⟩
  decide

/-- Claim C3 (amended with the source's length condition): for every blob
whose overlay section exists, the extraction output is exactly the section's
trimmed non-empty lines that are not excluded and are longer than five
characters, deduplicated preserving first-seen order. -/
theorem section_scanner_filters_and_dedupes (blob sec : List Char)
    (h : overlaySection blob = some sec) :
    extractOverlays blob = amendedSectionLines (sectionLines sec) := by
  have : extractOverlays blob = buildOverlays [] (sectionLines sec) := by
    simp [extractOverlays, h]
  rw [this, buildOverlays_eq]
  simp [amendedSectionLines, dedupFirst]

/-- Witness for C3's amended theorem at a concrete blob. -/
theorem section_scanner_filters_and_dedupes_witness :
    overlaySection
      ("OVERLAYS\nWaterway corridors\nShow on map\nWaterway corridors\nPlan Zone stuff".toList)
      = some ("\nWaterway corridors\nShow on map\nWaterway corridors\n".toList)
  ∧ extractOverlays
      ("OVERLAYS\nWaterway corridors\nShow on map\nWaterway corridors\nPlan Zone stuff".toList)
      = amendedSectionLines
          (sectionLines ("\nWaterway corridors\nShow on map\nWaterway corridors\n".toList))
  ∧ amendedSectionLines
      (sectionLines ("\nWaterway corridors\nShow on map\nWaterway corridors\n".toList))
      = ["Waterway corridors".toList] :=
  ⟨by decide,
   section_scanner_filters_and_dedupes _ _ (by decide),
   by decide⟩

/-- Claim C4: on rows that all carry a link handle, the row-matching loop
returns the link of the first row whose text contains the marker phrase as an
exact substring; in the documented three-row example the second row's link is
returned and the third row's link is never selected. -/
theorem row_matcher_first_hit :
    (∀ rows : List PRow, (∀ r ∈ rows, r.firstLink.isSome = true) →
       findDecisionLink rows =
         (rows.find? (fun r => containsSub marker r.text)).bind PRow.firstLink)
  ∧ findDecisionLink demoRows = some 2
  ∧ findDecisionLink demoRows ≠ some 3 := by
  refine ⟨?_, by decide, by decide⟩
  intro rows h
  induction rows with
  | nil => simp [findDecisionLink]
  | cons row rest ih =>
    cases hm : containsSub marker row.text with
    | false =>
      rw [List.find?_cons_of_neg _ (by simp [hm])]
      simp only [findDecisionLink, hm, if_false, Bool.false_eq_true]
      exact ih (fun r hr => h r (List.mem_cons_of_mem _ hr))
    | true =>
      rcases Option.isSome_iff_exists.mp (h row (List.mem_cons_self _ _)) with ⟨l, hl⟩
      rw [List.find?_cons_of_pos _ (by simp [hm])]
      simp [findDecisionLink, hm, hl]

/-- Witness for C4: the theorem applied to the documented example rows. -/
theorem row_matcher_first_hit_witness :
    (∀ r ∈ demoRows, r.firstLink.isSome = true)
  ∧ findDecisionLink demoRows =
      (demoRows.find? (fun r => containsSub marker r.text)).bind PRow.firstLink :=
  ⟨by decide, row_matcher_first_hit.1 demoRows (by decide)⟩

/-- No row containing the marker means the matching loop finds nothing. -/
theorem findDecisionLink_eq_none {rows : List PRow}
    (h : ∀ r ∈ rows, containsSub marker r.text = false) :
    findDecisionLink rows = none := by
  induction rows with
  | nil => rfl
  | cons row rest ih =>
    have hr := h row (List.mem_cons_self _ _)
    simp only [findDecisionLink, hr, Bool.false_eq_true, if_false]
    exact ih (fun r hrr => h r (List.mem_cons_of_mem _ hrr))

/-- The append-only accumulation of `documents_found` is the `filterMap` of
the per-row entry function over the rows, in row order. -/
theorem documentsFound_eq_filterMap (rows : List PRow) :
    documentsFound rows = rows.filterMap docEntryOf := by
  have general : ∀ (rs : List PRow) (acc : List (List Char × List Char)),
      rs.foldl
        (fun acc row =>
          match docEntryOf row with
          | some e => acc ++ [e]
          | none => acc) acc
        = acc ++ rs.filterMap docEntryOf := by
    intro rs
    induction rs with
    | nil => intro acc; simp
    | cons row rest ih =>
      intro acc
      cases he : docEntryOf row with
      | none => simp [List.foldl_cons, he, ih, List.filterMap_cons]
      | some e => simp [List.foldl_cons, he, ih, List.filterMap_cons]
  simpa using general rows []

/-- Counterexample for C5: with no marker hit, the returned failure carries
only `["Plan Form"]` — the second visited row's display name `"Minutes"` is
missing, because `documents_available` is built from the keyword-filtered
`documents_found` (pdonline_pdf_downloader.py lines 270 and 313), not from
the full set of rows visited. -/
theorem no_match_omits_unrecognized_row :
    (scanAndDownload cexRows ("/tmp/out.pdf".toList)).success = false
  ∧ (scanAndDownload cexRows ("/tmp/out.pdf".toList)).documents_available
      = some ["Plan Form".toList]
  ∧ ¬ ((scanAndDownload cexRows ("/tmp/out.pdf".toList)).documents_available
        = some (cexRows.map (fun row => stripChars (row.cells.getD 1 [])))) := by
  refine ⟨by decide, by decide, by decide⟩

/-- Claim C5 (amended: the carried names are those of the rows recognized as
document rows, not of every row visited): when no scanned row contains the
marker phrase, the function returns a structured failure — success flag
`false`, no file path — carrying the display names of exactly the recognized
document rows, in row order; the path is a total function returning a
`DownloadResult`, so nothing is raised to the caller. -/
theorem no_match_reports_document_names (rows : List PRow) (savedPath : List Char)
    (h : ∀ r ∈ rows, containsSub marker r.text = false) :
    (scanAndDownload rows savedPath).success = false
  ∧ (scanAndDownload rows savedPath).file_path = none
  ∧ (scanAndDownload rows savedPath).documents_available
      = some ((rows.filterMap docEntryOf).map Prod.snd) := by
  have hnone := findDecisionLink_eq_none h
  simp [scanAndDownload, hnone, documentsFound_eq_filterMap]

/-- Witness for C5's amended theorem at the concrete rows above. -/
theorem no_match_reports_document_names_witness :
    (∀ r ∈ cexRows, containsSub marker r.text = false)
  ∧ ((scanAndDownload cexRows ("/tmp/na.pdf".toList)).success = false
     ∧ (scanAndDownload cexRows ("/tmp/na.pdf".toList)).file_path = none
     ∧ (scanAndDownload cexRows ("/tmp/na.pdf".toList)).documents_available
         = some ((cexRows.filterMap docEntryOf).map Prod.snd))
  ∧ (cexRows.filterMap docEntryOf).map Prod.snd = ["Plan Form".toList] :=
  ⟨by decide,
   no_match_reports_document_names cexRows ("/tmp/na.pdf".toList) (by decide),
   by decide⟩

/-- Claim C6: the matched area group has its thousands separators removed
(the documented div text yields `"1234.5"`), a matched group without
separators is returned unchanged, and when the area pattern never matches the
area field is `None` (absent), never the empty string. -/
theorem area_extraction_normalization :
    ((extract_area_and_lotplan ["Plan Area 1,234.5 m²".toList]).1
       = some ("1234.5".toList))
  ∧ (∀ txt g : List Char, searchArea (stripChars txt) = some g → (',' ∉ g) →
       (extract_area_and_lotplan [txt]).1 = some g)
  ∧ (∀ txt : List Char, searchArea (stripChars txt) = none →
       (extract_area_and_lotplan [txt]).1 = none) := by
  refine ⟨by decide, ?_, ?_⟩
  · intro txt g hsearch hnc
    have hrc : removeCommas g = g := by
      rw [removeCommas, List.filter_eq_self]
      intro c hc
      simp
      rintro rfl
      exact hnc hc
    simp [extract_area_and_lotplan, areaLotplanStep, hsearch, pyFalsy, hrc]
  · intro txt hsearch
    simp [extract_area_and_lotplan, areaLotplanStep, hsearch]

/-- Witness for C6: a separator-free matched value is unchanged, and a blob
with no area pattern yields an absent field. -/
theorem area_extraction_normalization_witness :
    (searchArea (stripChars ("Plan Area 200 m2".toList)) = some ("200".toList)
     ∧ (',' ∉ ("200".toList))
     ∧ (extract_area_and_lotplan ["Plan Area 200 m2".toList]).1 = some ("200".toList))
  ∧ (searchArea (stripChars ("no area in this div".toList)) = none
     ∧ (extract_area_and_lotplan ["no area in this div".toList]).1 = none) :=
  ⟨⟨by decide, by decide,
    area_extraction_normalization.2.1 _ _ (by decide) (by decide)⟩,
   ⟨by decide,
    area_extraction_normalization.2.2 _ (by decide)⟩⟩

/-- Claim C7: the ordered-fallback resolver attempts the strategies strictly
in the caller-given order and stops at the first that resolves: with
strategies `[A, B, C]` of which only `C` resolves, the attempt trace is
exactly `A`, then `B`, then `C`, and the outcome is `C`'s. -/
theorem locator_resolver_in_order {S R : Type} (tryS : S → Option R)
    (A B C : S) (r : R)
    (hA : tryS A = none) (hB : tryS B = none) (hC : tryS C = some r) :
    resolverTrace tryS [A, B, C] = ([A, B, C], some (C, r)) := by
  simp [resolverTrace, hA, hB, hC]

/-- Witness for C7: the resolver where only strategy `2` resolves. -/
theorem locator_resolver_in_order_witness :
    tryDemo 0 = none ∧ tryDemo 1 = none ∧ tryDemo 2 = some 7
  ∧ resolverTrace tryDemo [0, 1, 2] = ([0, 1, 2], some (2, 7)) :=
  ⟨rfl, rfl, rfl, locator_resolver_in_order tryDemo 0 1 2 7 rfl rfl rfl⟩

/-- Claim C8: when the readiness wait for the zone text never observes its
condition within the bound, panel-text capture is non-fatal: the function
falls back to reading the page body's current text and returns it (the
embedding is a total function into `List Char`, so no exception reaches the
caller on this path). -/
theorem panel_timeout_falls_back_to_body (pg : PanelPage)
    (h : pg.zoneReady = false) :
    scrape_left_panel_text pg = pg.bodyText := by
  simp [scrape_left_panel_text, h]

/-- Witness for C8: a page whose readiness wait timed out. -/
theorem panel_timeout_falls_back_to_body_witness :
    pgTimeout.zoneReady = false
  ∧ scrape_left_panel_text pgTimeout = pgTimeout.bodyText :=
  ⟨rfl, panel_timeout_falls_back_to_body pgTimeout rfl⟩

/-- Claim C9 (the code contradicts it in the property workflow): in
`scrape_goldcoast_property`'s failure handler the diagnostic screenshot call
is unguarded, so when the capture itself fails its error — not the original
failure — propagates to the caller; only when the capture succeeds is the
original error re-raised.  `download_decision_notice` guards the capture with
an inner `try/except: pass`, so there the original failure reason survives a
capture error, as the claim demands. -/
theorem goldcoast_capture_error_masks_original :
    goldcoast_failure_propagated
        (some ("Target page, context or browser has been closed".toList))
        ("Timeout 30000ms exceeded.".toList)
      = "Target page, context or browser has been closed".toList
  ∧ goldcoast_failure_propagated none ("Timeout 30000ms exceeded.".toList)
      = "Timeout 30000ms exceeded.".toList
  ∧ pdonline_failure_result
        (some ("Target page, context or browser has been closed".toList))
        ("Timeout 30000ms exceeded.".toList)
      = { success := false, file_path := none,
          error := some ("Timeout 30000ms exceeded.".toList),
          documents_available := none } :=
  ⟨rfl, rfl, rfl⟩

/-- Claim C10: the address of the resulting record is the input query
verbatim, and each extraction stage modifies only its own fields: the
area/lot-plan stage touches only `area_sqm` and `lot_plan`, the
zone/density/overlay stage only `zone`, `residential_density` and `overlays`,
and the building-height stage only `building_height`. -/
theorem property_record_address_frame :
    (∀ (query : List Char) (divTexts : List (List Char))
       (panelText : List Char) (hc : Bool),
       (scrape_goldcoast_property query divTexts panelText hc).address = query)
  ∧ (∀ (divTexts : List (List Char)) (r : PropertyData),
       (stage_area_lotplan divTexts r).address = r.address
     ∧ (stage_area_lotplan divTexts r).zone = r.zone
     ∧ (stage_area_lotplan divTexts r).residential_density = r.residential_density
     ∧ (stage_area_lotplan divTexts r).building_height = r.building_height
     ∧ (stage_area_lotplan divTexts r).overlays = r.overlays)
  ∧ (∀ (panelText : List Char) (r : PropertyData),
       (stage_zone_density_overlays panelText r).address = r.address
     ∧ (stage_zone_density_overlays panelText r).lot_plan = r.lot_plan
     ∧ (stage_zone_density_overlays panelText r).area_sqm = r.area_sqm
     ∧ (stage_zone_density_overlays panelText r).building_height = r.building_height)
  ∧ (∀ (hc : Bool) (r : PropertyData),
       (stage_building_height hc r).address = r.address
     ∧ (stage_building_height hc r).lot_plan = r.lot_plan
     ∧ (stage_building_height hc r).zone = r.zone
     ∧ (stage_building_height hc r).residential_density = r.residential_density
     ∧ (stage_building_height hc r).area_sqm = r.area_sqm
     ∧ (stage_building_height hc r).overlays = r.overlays) := by
  refine ⟨?_, ?_, ?_, ?_⟩
  · intro query divTexts panelText hc
    cases hc <;>
      simp [scrape_goldcoast_property, stage_building_height,
        stage_zone_density_overlays, stage_area_lotplan, init_record]
  · intro divTexts r
    simp [stage_area_lotplan]
  · intro panelText r
    simp [stage_zone_density_overlays]
  · intro hc r
    cases hc <;> simp [stage_building_height]

end DevIDemo
